import Mathlib

/-!
Shallow embedding of the card-game engine in `myenv/card_game_env.py`
(class `CardGameEnv`).

Modelling conventions:
* Card values are `Int` (the source mixes raw card values 0..5 with the
  sentinel `-1` for "hold slot empty" / "next card unset").
* Rewards and the accumulated score are `Rat` (the source uses floats, but
  every value produced — 0.0, -0.1, 1000.0 * 2^n and their sums — is exact).
* The source draws from Python's *global* `random` module
  (`random.random() < ZERO_DRAW_RATE` and `random.choice(available)`).
  We model that global stream as a function `rng : Nat → Bool × Nat`
  together with a position `rngIdx`: one stream element is consumed per
  `_draw_card` call, its `Bool` answering "did `random.random()` fall below
  `ZERO_DRAW_RATE`?" and its `Nat` selecting the index chosen by
  `random.choice` (taken modulo the pool size).  Every concrete stream
  corresponds to a possible behaviour of the Python RNG.
  Note `CardGameEnv.reset(seed=...)` forwards the seed to
  `gymnasium.Env.reset`, which seeds only `self.np_random`; `_draw_card`
  never reads `self.np_random`, so the seed plays no role in drawing and
  does not appear in the model.
* `hand` is a `List Int`; the source initialises it to `[]` in `__init__`
  and to a 4-element list in `reset`.
-/

namespace CardGame

/-- `MAX_CARD_VALUE = 5`. -/
def MAX_CARD_VALUE : Int := 5

/-- `HAND_SIZE = 4`. -/
def HAND_SIZE : Nat := 4

/-- `MAX_TURNS = 20`. -/
def MAX_TURNS : Int := 20

/-- `MAX_MERGES_PER_TURN = 2`. -/
def MAX_MERGES_PER_TURN : Nat := 2

/-- `MERGE_LIMIT_VALUE = 4`. -/
def MERGE_LIMIT_VALUE : Int := 4

/-- `ACTION_PLAY_HOLD = 4`. -/
def ACTION_PLAY_HOLD : Nat := 4

/-- `ACTION_MERGE_OFFSET = 5`. -/
def ACTION_MERGE_OFFSET : Nat := 5

/-- `ACTION_HOLD_CARD_OFFSET = 11`. -/
def ACTION_HOLD_CARD_OFFSET : Nat := 11

/-- `ACTION_CLEAR_STACK = 15`. -/
def ACTION_CLEAR_STACK : Nat := 15

/-- `NUM_ACTIONS = 16`. -/
def NUM_ACTIONS : Nat := 16

/-- `REWARD_FULL_CHAIN = 1000.0`. -/
def REWARD_FULL_CHAIN : Rat := 1000

/-- `PENALTY_INVALID_ACTION = -0.1`. -/
def PENALTY_INVALID_ACTION : Rat := -(1/10)

/-- The mutable state of a `CardGameEnv` instance, together with the global
RNG stream (`rng`) and the current position in it (`rngIdx`).  The fields
`last_clear_is_full_chain` / `last_clear_stacked_zeros` model the attributes
`_last_clear_is_full_chain` / `_last_clear_stacked_zeros` (read through
`getattr(..., False)` / `getattr(..., 0)` in the source, which is equivalent
to fields initialised to `false` / `0`). -/
structure GameState where
  hand : List Int
  hold_slot : Int
  next_card : Int
  stack : List Int
  current_turn : Int
  merges_this_turn : Nat
  score : Rat
  last_clear_is_full_chain : Bool
  last_clear_stacked_zeros : Nat
  rng : Nat → Bool × Nat
  rngIdx : Nat

/-- `self.hand[i]` for the in-range accesses of the source (all accesses in
the source happen with `len(hand) = 4` and `i < 4`; the default is
irrelevant there). -/
def handAt (s : GameState) (i : Nat) : Int := s.hand.getD i 0

/-- `_count_specific_card_on_board`: count occurrences of `card_value` in
hand, hold slot, next card, and stack. -/
def count_specific_card_on_board (s : GameState) (card_value : Int) : Nat :=
  s.hand.count card_value
    + (if s.hold_slot = card_value then 1 else 0)
    + (if s.next_card = card_value then 1 else 0)
    + s.stack.count card_value

/-- `_draw_card`: with the stream's Bool (i.e. `random.random() <
ZERO_DRAW_RATE`) return 0; otherwise choose from `[1,2,3,4,5]`, removing 5
when a 5 is already on the board; the stream's `Nat` (mod pool size) models
`random.choice`.  Returns the card and the state with the stream advanced. -/
def draw_card (s : GameState) : Int × GameState :=
  let r := s.rng s.rngIdx
  let s' : GameState := { s with rngIdx := s.rngIdx + 1 }
  if r.1 then (0, s')
  else
    let available : List Int :=
      if 1 ≤ count_specific_card_on_board s MAX_CARD_VALUE then [1, 2, 3, 4]
      else [1, 2, 3, 4, 5]
    (available.getD (r.2 % available.length) 1, s')

/-- `_deal_initial_cards`.  The Python list comprehension
`[self._draw_card() for _ in range(HAND_SIZE)]` is evaluated *before* the
assignment to `self.hand`, so all four draws see the pre-deal hand; then
`hold_slot` is set to `-1`, and only after that is `next_card` drawn (with
the old `next_card` still in place during that draw). -/
def deal_initial_cards (s : GameState) : GameState :=
  let d1 := draw_card s
  let d2 := draw_card d1.2
  let d3 := draw_card d2.2
  let d4 := draw_card d3.2
  let s5 : GameState := { d4.2 with hand := [d1.1, d2.1, d3.1, d4.1], hold_slot := -1 }
  let d5 := draw_card s5
  { d5.2 with next_card := d5.1 }

/-- `_replace_card_in_hand`: overwrite hand slot `index` with `next_card`
(the old `next_card` is still visible to the draw that follows), then draw a
new `next_card`.  Out-of-range indices do nothing, as in the source. -/
def replace_card_in_hand (s : GameState) (index : Nat) : GameState :=
  if index < HAND_SIZE then
    let s1 : GameState := { s with hand := s.hand.set index s.next_card }
    let d := draw_card s1
    { d.2 with next_card := d.1 }
  else s

/-- `_remove_and_replace_merged_cards`: write the merged card into the lower
index, `next_card` into the higher index, then draw a new `next_card`. -/
def remove_and_replace_merged_cards (s : GameState) (idx1 idx2 : Nat)
    (merged_card : Int) : GameState :=
  let s1 : GameState :=
    { s with hand := (s.hand.set (min idx1 idx2) merged_card).set (max idx1 idx2) s.next_card }
  let d := draw_card s1
  { d.2 with next_card := d.1 }

/-- `_is_valid_play`: `-1` (empty hold) is never playable; a 0 is playable
iff the stack is empty or its top is 0; a non-zero card is playable iff the
stack is empty, or its top is 0, or the card exceeds the top. -/
def is_valid_play (s : GameState) (card_to_play : Int) : Bool :=
  if card_to_play = -1 then false
  else
    let stack_top := s.stack.getLastD (-1)
    if card_to_play = 0 then s.stack.isEmpty || decide (stack_top = 0)
    else if s.stack.isEmpty then true
    else if stack_top = 0 then true
    else decide (stack_top < card_to_play)

/-- The merge-eligibility test used both by `action_masks`
(`0 < card < MAX_CARD_VALUE and card < MERGE_LIMIT_VALUE + 1`) and by
`_handle_merge_action`. -/
def eligibleMergeCard (c : Int) : Bool :=
  decide (0 < c) && decide (c < MAX_CARD_VALUE) && decide (c < MERGE_LIMIT_VALUE + 1)

/-- `_action_to_merge_pair`: the fixed dictionary mapping merge action ids
5..10 to the pairs `combinations(range(4), 2)` enumerates:
(0,1),(0,2),(0,3),(1,2),(1,3),(2,3). -/
def mergePairOfAction (a : Nat) : Option (Nat × Nat) :=
  if a = 5 then some (0, 1)
  else if a = 6 then some (0, 2)
  else if a = 7 then some (0, 3)
  else if a = 8 then some (1, 2)
  else if a = 9 then some (1, 3)
  else if a = 10 then some (2, 3)
  else none

/-- The mask entry for the merge pair `(i, j)`.  This is the pairwise
unfolding of the `Counter`/`indices_map` loop in `action_masks`: that loop
marks the action of pair `(i, j)` exactly when merges remain this turn and
both slots hold the same merge-eligible card. -/
def mergeMaskAt (s : GameState) (i j : Nat) : Bool :=
  decide (s.merges_this_turn < MAX_MERGES_PER_TURN)
    && eligibleMergeCard (handAt s i) && eligibleMergeCard (handAt s j)
    && decide (handAt s i = handAt s j)

/-- `action_masks`: the 16-entry legality mask, in the source's band order
(play-from-hand 0-3, play-from-hold 4, merge 5-10, hold 11-14, clear 15). -/
def action_masks (s : GameState) : List Bool :=
  [ is_valid_play s (handAt s 0), is_valid_play s (handAt s 1),
    is_valid_play s (handAt s 2), is_valid_play s (handAt s 3),
    is_valid_play s s.hold_slot,
    mergeMaskAt s 0 1, mergeMaskAt s 0 2, mergeMaskAt s 0 3,
    mergeMaskAt s 1 2, mergeMaskAt s 1 3, mergeMaskAt s 2 3,
    decide (handAt s 0 = 0), decide (handAt s 1 = 0),
    decide (handAt s 2 = 0), decide (handAt s 3 = 0),
    !s.stack.isEmpty ]

/-- `any(play_masks[0:4]) or play_masks[4]` from the pre-check in `step`. -/
def can_play_any (s : GameState) : Bool :=
  ((action_masks s).take 4).any (fun b => b) || (action_masks s).getD 4 false

/-- The condition of the forced-clear pre-check in `step`:
no play action is legal and the stack is non-empty. -/
def forced_clear_fires (s : GameState) : Bool :=
  (!can_play_any s) && !s.stack.isEmpty

/-- `_handle_play_hand_action` (the action id is the hand index, since
`ACTION_PLAY_HAND_OFFSET = 0`). -/
def handle_play_hand_action (s : GameState) (action : Nat) : GameState × Rat :=
  if action < s.hand.length then
    let card_to_play := handAt s action
    if is_valid_play s card_to_play then
      let s1 : GameState := { s with stack := s.stack ++ [card_to_play] }
      (replace_card_in_hand s1 action, 0)
    else (s, PENALTY_INVALID_ACTION)
  else (s, PENALTY_INVALID_ACTION)

/-- `_handle_play_hold_action`. -/
def handle_play_hold_action (s : GameState) : GameState × Rat :=
  if is_valid_play s s.hold_slot then
    ({ s with stack := s.stack ++ [s.hold_slot], hold_slot := -1 }, 0)
  else (s, PENALTY_INVALID_ACTION)

/-- The merged value `value+1 if value < MERGE_LIMIT_VALUE else
MERGE_LIMIT_VALUE` from `_handle_merge_action`. -/
def mergedValue (v : Int) : Int :=
  if v < MERGE_LIMIT_VALUE then v + 1 else MERGE_LIMIT_VALUE

/-- `_handle_merge_action`. -/
def handle_merge_action (s : GameState) (action : Nat) : GameState × Rat :=
  if MAX_MERGES_PER_TURN ≤ s.merges_this_turn then (s, PENALTY_INVALID_ACTION)
  else
    match mergePairOfAction action with
    | none => (s, PENALTY_INVALID_ACTION)
    | some (idx1, idx2) =>
      if idx1 < HAND_SIZE ∧ idx2 < HAND_SIZE ∧ idx1 ≠ idx2
          ∧ handAt s idx1 = handAt s idx2
          ∧ 0 < handAt s idx1 ∧ handAt s idx1 < MAX_CARD_VALUE
          ∧ handAt s idx1 < MERGE_LIMIT_VALUE + 1 then
        let s1 := remove_and_replace_merged_cards s idx1 idx2 (mergedValue (handAt s idx1))
        ({ s1 with merges_this_turn := s1.merges_this_turn + 1 }, 0)
      else (s, PENALTY_INVALID_ACTION)

/-- `_handle_hold_card_action` (hand index = action − 11; only a 0 may be
held; the hold slot is overwritten unconditionally on success). -/
def handle_hold_card_action (s : GameState) (action : Nat) : GameState × Rat :=
  let hand_idx := action - ACTION_HOLD_CARD_OFFSET
  if hand_idx < HAND_SIZE ∧ handAt s hand_idx = 0 then
    let s1 : GameState := { s with hold_slot := handAt s hand_idx }
    (replace_card_in_hand s1 hand_idx, 0)
  else (s, PENALTY_INVALID_ACTION)

/-- `_calculate_clear_reward`: reward 1000 iff the non-zero stack values
form exactly the set {1,2,3,4,5}, doubled per 0 card when positive; the
score is incremented by positive rewards (the source mutates `self.score`
here).  Returns (state, reward, is_full_chain, num_zeros). -/
def calculate_clear_reward (s : GameState) : GameState × Rat × Bool × Nat :=
  let num_zeros := s.stack.count 0
  let non_zero_stack := s.stack.filter (fun c => c != 0)
  let is_full_chain : Bool :=
    decide (non_zero_stack.toFinset = ({1, 2, 3, 4, 5} : Finset Int))
  let reward0 : Rat := if is_full_chain then REWARD_FULL_CHAIN else 0
  let reward : Rat :=
    if 0 < num_zeros ∧ 0 < reward0 then reward0 * (2 : Rat) ^ num_zeros else reward0
  let s' : GameState := if 0 < reward then { s with score := s.score + reward } else s
  (s', reward, is_full_chain, num_zeros)

/-- `_end_turn`: empty the stack, advance the turn, reset the merge count. -/
def end_turn (s : GameState) : GameState :=
  { s with stack := [], current_turn := s.current_turn + 1, merges_this_turn := 0 }

/-- `_handle_clear_stack_action`: penalty on an empty stack; otherwise
compute the clear reward, record the full-chain flag and zero count for
`_get_info`, and end the turn. -/
def handle_clear_stack_action (s : GameState) : GameState × Rat :=
  if s.stack.isEmpty then (s, PENALTY_INVALID_ACTION)
  else
    let r := calculate_clear_reward s
    let s2 : GameState :=
      { r.1 with last_clear_is_full_chain := r.2.2.1, last_clear_stacked_zeros := r.2.2.2 }
    (end_turn s2, r.2.1)

/-- `step`: forced-clear pre-check first (note that this path does *not*
update the `last_clear_*` fields, unlike `_handle_clear_stack_action`);
otherwise dispatch on the action bands; any other id falls into the final
`else` with the invalid-action penalty.  Returns (state, reward,
terminated); `truncated` is always `False` in the source and is omitted. -/
def step (s : GameState) (a : Nat) : GameState × Rat × Bool :=
  if forced_clear_fires s then
    let r := calculate_clear_reward s
    let s2 := end_turn r.1
    (s2, r.2.1, decide (MAX_TURNS < s2.current_turn))
  else
    let p : GameState × Rat :=
      if a < ACTION_PLAY_HOLD then handle_play_hand_action s a
      else if a = ACTION_PLAY_HOLD then handle_play_hold_action s
      else if a < ACTION_HOLD_CARD_OFFSET then handle_merge_action s a
      else if a < ACTION_CLEAR_STACK then handle_hold_card_action s a
      else if a = ACTION_CLEAR_STACK then handle_clear_stack_action s
      else (s, PENALTY_INVALID_ACTION)
    (p.1, p.2, decide (MAX_TURNS < p.1.current_turn))

/-- The observation dictionary built by `_get_obs`. -/
structure Obs where
  hand : List Int
  hold : Int
  next : Int
  stack_top : Int
  stacked_zeros : Nat
  remaining_turns : Int
  remaining_merges : Int

/-- `_get_obs`. -/
def get_obs (s : GameState) : Obs :=
  { hand := s.hand,
    hold := if s.hold_slot = -1 then 0 else 1,
    next := if s.next_card = -1 then 0 else s.next_card + 1,
    stack_top := if s.stack.isEmpty then 0 else s.stack.getLastD (-1) + 1,
    stacked_zeros := s.stack.count 0,
    remaining_turns := MAX_TURNS - s.current_turn + 1,
    remaining_merges := (MAX_MERGES_PER_TURN : Int) - s.merges_this_turn }

/-- The info dictionary built by `_get_info`. -/
structure Info where
  current_turn : Int
  merges_this_turn : Nat
  stack_size : Nat
  current_stack : List Int
  hold_content : Int
  score : Rat
  is_full_chain : Bool
  stacked_zeros : Nat

/-- `_get_info`: reports the retained full-chain flag; the zero count is the
retained one only when that flag is set, otherwise the current stack's. -/
def get_info (s : GameState) : Info :=
  { current_turn := s.current_turn,
    merges_this_turn := s.merges_this_turn,
    stack_size := s.stack.length,
    current_stack := s.stack,
    hold_content := s.hold_slot,
    score := s.score,
    is_full_chain := s.last_clear_is_full_chain,
    stacked_zeros :=
      if s.last_clear_is_full_chain then s.last_clear_stacked_zeros
      else s.stack.count 0 }

/-- `reset` (minus the unused seeding of `self.np_random`): clear the
bookkeeping fields and deal. -/
def reset (s : GameState) : GameState :=
  let s0 : GameState :=
    { s with stack := [], current_turn := 1, merges_this_turn := 0, score := 0,
             last_clear_is_full_chain := false, last_clear_stacked_zeros := 0 }
  deal_initial_cards s0

/-- The field values set by `__init__` on a fresh `CardGameEnv`, with the
global RNG stream `g` at position `k` (position 0 for the first instance
ever created; a later instance starts wherever earlier consumers left the
shared stream). -/
def initState (g : Nat → Bool × Nat) (k : Nat) : GameState :=
  { hand := [], hold_slot := -1, next_card := -1, stack := [],
    current_turn := 0, merges_this_turn := 0, score := 0,
    last_clear_is_full_chain := false, last_clear_stacked_zeros := 0,
    rng := g, rngIdx := k }

/-- A constant RNG stream: never a 0-card, `random.choice` picks index 0. -/
def rngZero : Nat → Bool × Nat := fun _ => (false, 0)

/-- A reachable-shaped state in which the forced-clear pre-check fires:
no hand card beats the 5-topped stack and the hold slot is empty. -/
def forcedDemoState : GameState :=
  { hand := [1, 1, 1, 1], hold_slot := -1, next_card := 2, stack := [1, 2, 3, 4, 5],
    current_turn := 3, merges_this_turn := 1, score := 0,
    last_clear_is_full_chain := false, last_clear_stacked_zeros := 0,
    rng := rngZero, rngIdx := 0 }

/-- A live state with a playable hand and an empty stack (so that neither
the forced-clear pre-check nor the clear action applies). -/
def playableState : GameState :=
  { hand := [1, 2, 3, 4], hold_slot := -1, next_card := 1, stack := [],
    current_turn := 1, merges_this_turn := 0, score := 0,
    last_clear_is_full_chain := false, last_clear_stacked_zeros := 0,
    rng := rngZero, rngIdx := 0 }

/-- A live state in which hand slots 0 and 1 hold equal, mergeable cards. -/
def mergeDemoState : GameState :=
  { hand := [2, 2, 1, 3], hold_slot := -1, next_card := 4, stack := [],
    current_turn := 2, merges_this_turn := 0, score := 0,
    last_clear_is_full_chain := false, last_clear_stacked_zeros := 0,
    rng := rngZero, rngIdx := 0 }

/-- A terminated-episode state (`current_turn = 21 > MAX_TURNS`) in which
hand slot 0 is still playable onto the empty stack. -/
def deadPlayState : GameState :=
  { hand := [3, 1, 1, 1], hold_slot := -1, next_card := 2, stack := [],
    current_turn := 21, merges_this_turn := 0, score := 0,
    last_clear_is_full_chain := false, last_clear_stacked_zeros := 0,
    rng := rngZero, rngIdx := 0 }

/-- A terminated-episode state in which the forced-clear pre-check fires. -/
def deadForcedState : GameState :=
  { hand := [1, 1, 1, 1], hold_slot := -1, next_card := 2, stack := [5],
    current_turn := 21, merges_this_turn := 0, score := 0,
    last_clear_is_full_chain := false, last_clear_stacked_zeros := 0,
    rng := rngZero, rngIdx := 0 }

/-- A live state with a non-empty stack on which a voluntary clear is
available and the forced-clear pre-check does not fire. -/
def volClearState : GameState :=
  { hand := [1, 2, 3, 4], hold_slot := -1, next_card := 1, stack := [1],
    current_turn := 1, merges_this_turn := 0, score := 0,
    last_clear_is_full_chain := false, last_clear_stacked_zeros := 0,
    rng := rngZero, rngIdx := 0 }

/-- An RNG stream that never yields a zero card and always answers choice
index 4 (which selects 5 from the full pool `[1,2,3,4,5]`). -/
def rngAllFives : Nat → Bool × Nat := fun _ => (false, 4)

/-- An RNG stream whose first choice differs from all later ones. -/
def rngShift : Nat → Bool × Nat := fun n => (false, if n = 0 then 0 else 1)

/-! ## Theorems -/

lemma getLastD_mem_of_ne_nil {l : List Int} (h : l ≠ []) (d : Int) :
    l.getLastD d ∈ l := by
  rw [List.getLastD_eq_getLast?, List.getLast?_eq_getLast _ h]
  exact List.getLast_mem h

/-- Claim C1: `_is_valid_play` returns true exactly under the spec's rule —
an absent hold value (−1) is never a valid play source; on an empty stack
any card (including 0) is valid; on a 0-topped stack any card is valid; a 0
on a stack topped by a card ≥ 1 is invalid; otherwise the play is valid iff
the candidate strictly exceeds the stack top. -/
theorem c1_is_valid_play_rule (s : GameState) (card : Int)
    (hcard : card = -1 ∨ (0 ≤ card ∧ card ≤ 5))
    (hstack : ∀ c ∈ s.stack, 0 ≤ c ∧ c ≤ 5) :
    is_valid_play s card = true ↔
      card ≠ -1 ∧
        (s.stack = [] ∨ s.stack.getLastD (-1) = 0 ∨
          (1 ≤ s.stack.getLastD (-1) ∧ card ≠ 0 ∧ s.stack.getLastD (-1) < card)) := by
  rcases hcard with rfl | ⟨h0, h5⟩
  · simp [is_valid_play]
  · have hm1 : card ≠ -1 := by omega
    by_cases hs : s.stack = []
    · by_cases hc0 : card = 0 <;> simp [is_valid_play, hs, hm1, hc0]
    · obtain ⟨htl, hth⟩ := hstack _ (getLastD_mem_of_ne_nil hs (-1))
      have hne : s.stack.isEmpty = false := by
        simpa [List.isEmpty_iff] using hs
      have heq : s.stack.getLast?.getD (-1) = s.stack.getLastD (-1) :=
        (List.getLastD_eq_getLast? _ _).symm
      by_cases ht0 : s.stack.getLastD (-1) = 0 <;>
        by_cases hc0 : card = 0 <;>
          simp [is_valid_play, hne, hm1, hc0, ht0, hs] <;> omega

/-- Witness for C1 at a concrete input: card 3 on stack [1,2]. -/
theorem c1_witness :
    is_valid_play
        { hand := [1, 2, 3, 4], hold_slot := -1, next_card := 1, stack := [1, 2],
          current_turn := 1, merges_this_turn := 0, score := 0,
          last_clear_is_full_chain := false, last_clear_stacked_zeros := 0,
          rng := fun _ => (false, 0), rngIdx := 0 } 3 = true ↔
      (3 : Int) ≠ -1 ∧
        (([1, 2] : List Int) = [] ∨ ([1, 2] : List Int).getLastD (-1) = 0 ∨
          (1 ≤ ([1, 2] : List Int).getLastD (-1) ∧ (3 : Int) ≠ 0 ∧
            ([1, 2] : List Int).getLastD (-1) < 3)) :=
  c1_is_valid_play_rule _ 3 (Or.inr (by norm_num)) (by decide)

/-- Claim C4: for every stack being cleared, with `z` the number of 0-valued
cards in it, the clear reward is `1000 * 2^z` when the set of non-zero
values is exactly {1,2,3,4,5}, and 0 otherwise. -/
theorem c4_clear_reward_formula (s : GameState) :
    (calculate_clear_reward s).2.1 =
      if (s.stack.filter (fun c => c != 0)).toFinset = ({1, 2, 3, 4, 5} : Finset Int)
      then REWARD_FULL_CHAIN * (2 : Rat) ^ (s.stack.count 0)
      else 0 := by
  unfold calculate_clear_reward
  by_cases hfc : (s.stack.filter (fun c => c != 0)).toFinset = ({1, 2, 3, 4, 5} : Finset Int)
  · by_cases hz : 0 < s.stack.count 0
    · simp [hfc, hz, REWARD_FULL_CHAIN]
    · have hz0 : s.stack.count 0 = 0 := by omega
      simp [hfc, hz0, REWARD_FULL_CHAIN]
  · have hfc' :
        ¬ Finset.filter (fun x => ¬x = 0) s.stack.toFinset = ({1, 2, 3, 4, 5} : Finset Int) := by
      simpa [List.toFinset_filter] using hfc
    simp [hfc']

/-! ### Support lemmas about the transition function -/

lemma draw_card_state (s : GameState) :
    (draw_card s).2 = { s with rngIdx := s.rngIdx + 1 } := by
  unfold draw_card
  dsimp only
  split_ifs <;> rfl

lemma calc_clear_state (s : GameState) :
    (calculate_clear_reward s).1.hand = s.hand ∧
    (calculate_clear_reward s).1.hold_slot = s.hold_slot ∧
    (calculate_clear_reward s).1.next_card = s.next_card ∧
    (calculate_clear_reward s).1.stack = s.stack ∧
    (calculate_clear_reward s).1.current_turn = s.current_turn ∧
    (calculate_clear_reward s).1.merges_this_turn = s.merges_this_turn ∧
    (calculate_clear_reward s).1.last_clear_is_full_chain = s.last_clear_is_full_chain ∧
    (calculate_clear_reward s).1.last_clear_stacked_zeros = s.last_clear_stacked_zeros := by
  unfold calculate_clear_reward
  dsimp only
  split_ifs <;> simp

lemma calc_clear_reward_nonneg (s : GameState) : 0 ≤ (calculate_clear_reward s).2.1 := by
  unfold calculate_clear_reward REWARD_FULL_CHAIN
  dsimp only
  split_ifs <;> positivity

lemma replace_card_turn (s : GameState) (i : Nat) :
    (replace_card_in_hand s i).current_turn = s.current_turn := by
  unfold replace_card_in_hand
  split_ifs <;> simp [draw_card_state]

lemma remove_merged_turn (s : GameState) (i j : Nat) (m : Int) :
    (remove_and_replace_merged_cards s i j m).current_turn = s.current_turn := by
  unfold remove_and_replace_merged_cards
  simp [draw_card_state]

lemma play_hand_turn (s : GameState) (a : Nat) :
    (handle_play_hand_action s a).1.current_turn = s.current_turn := by
  unfold handle_play_hand_action
  dsimp only
  split_ifs <;> simp [replace_card_turn]

lemma play_hold_turn (s : GameState) :
    (handle_play_hold_action s).1.current_turn = s.current_turn := by
  unfold handle_play_hold_action
  split_ifs <;> rfl

lemma merge_turn (s : GameState) (a : Nat) :
    (handle_merge_action s a).1.current_turn = s.current_turn := by
  unfold handle_merge_action
  split_ifs with h
  · rfl
  · cases hm : mergePairOfAction a with
    | none => simp [hm]
    | some p =>
      rcases p with ⟨i, j⟩
      simp only [hm]
      split_ifs <;> simp [remove_merged_turn]

lemma hold_card_turn (s : GameState) (a : Nat) :
    (handle_hold_card_action s a).1.current_turn = s.current_turn := by
  unfold handle_hold_card_action
  dsimp only
  split_ifs <;> simp [replace_card_turn]

lemma clear_turn_ge (s : GameState) :
    s.current_turn ≤ (handle_clear_stack_action s).1.current_turn := by
  unfold handle_clear_stack_action
  split_ifs
  · simp
  · have h := (calc_clear_state s).2.2.2.2.1
    simp only [end_turn]
    omega

lemma step_turn_ge (s : GameState) (a : Nat) :
    s.current_turn ≤ (step s a).1.current_turn := by
  unfold step
  dsimp only
  split_ifs with hf h1 h2 h3 h4 h5
  · have h := (calc_clear_state s).2.2.2.2.1
    simp only [end_turn]
    omega
  · simp [play_hand_turn]
  · simp [play_hold_turn]
  · simp [merge_turn]
  · simp [hold_card_turn]
  · exact clear_turn_ge s
  · simp

lemma step_terminated_eq (s : GameState) (a : Nat) :
    (step s a).2.2 = decide (MAX_TURNS < (step s a).1.current_turn) := by
  unfold step
  split_ifs <;> rfl

/-- Claim C3: whenever no play action is legal and the stack is non-empty,
`step` ignores the submitted id, performs the stack clear (clear reward,
emptied stack, turn + 1, merge counter reset, everything else untouched) and
returns that reward. -/
theorem c3_forced_clear (s : GameState) (a : Nat) (ha : a < NUM_ACTIONS)
    (h : forced_clear_fires s = true) :
    (step s a).1.stack = [] ∧
    (step s a).1.current_turn = s.current_turn + 1 ∧
    (step s a).1.merges_this_turn = 0 ∧
    (step s a).1.hand = s.hand ∧
    (step s a).1.hold_slot = s.hold_slot ∧
    (step s a).1.next_card = s.next_card ∧
    (step s a).2.1 = (calculate_clear_reward s).2.1 ∧
    step s a = step s 0 := by
  obtain ⟨h1, h2, h3, h4, h5, h6, -, -⟩ := calc_clear_state s
  simp [step, h, end_turn, h1, h2, h3, h4, h5, h6]

/-- Witness for C3: a state whose hand cannot beat a 5-topped stack. -/
theorem c3_witness :
    (forced_clear_fires forcedDemoState = true) ∧
    ((step forcedDemoState 7).1.stack = [] ∧
      (step forcedDemoState 7).1.current_turn = forcedDemoState.current_turn + 1 ∧
      (step forcedDemoState 7).1.merges_this_turn = 0 ∧
      (step forcedDemoState 7).1.hand = forcedDemoState.hand ∧
      (step forcedDemoState 7).1.hold_slot = forcedDemoState.hold_slot ∧
      (step forcedDemoState 7).1.next_card = forcedDemoState.next_card ∧
      (step forcedDemoState 7).2.1 = (calculate_clear_reward forcedDemoState).2.1 ∧
      step forcedDemoState 7 = step forcedDemoState 0) :=
  ⟨by decide, c3_forced_clear forcedDemoState 7 (by decide) (by decide)⟩

/-! ### Dispatch lemmas: `step` without the forced-clear pre-check -/

lemma step_band_play_hand (s : GameState) (a : Nat) (hnf : forced_clear_fires s = false)
    (h : a < ACTION_PLAY_HOLD) :
    step s a = ((handle_play_hand_action s a).1, (handle_play_hand_action s a).2,
      decide (MAX_TURNS < (handle_play_hand_action s a).1.current_turn)) := by
  unfold step
  rw [if_neg (by simp [hnf])]
  dsimp only
  rw [if_pos h]

lemma step_band_play_hold (s : GameState) (hnf : forced_clear_fires s = false) :
    step s ACTION_PLAY_HOLD = ((handle_play_hold_action s).1, (handle_play_hold_action s).2,
      decide (MAX_TURNS < (handle_play_hold_action s).1.current_turn)) := by
  unfold step
  rw [if_neg (by simp [hnf])]
  rfl

lemma step_band_merge (s : GameState) (a : Nat) (hnf : forced_clear_fires s = false)
    (h5 : ACTION_MERGE_OFFSET ≤ a) (h11 : a < ACTION_HOLD_CARD_OFFSET) :
    step s a = ((handle_merge_action s a).1, (handle_merge_action s a).2,
      decide (MAX_TURNS < (handle_merge_action s a).1.current_turn)) := by
  have h5 : 5 ≤ a := h5
  have h11 : a < 11 := h11
  unfold step
  rw [if_neg (by simp [hnf])]
  dsimp only
  rw [if_neg (show ¬a < ACTION_PLAY_HOLD by unfold ACTION_PLAY_HOLD; omega),
    if_neg (show ¬a = ACTION_PLAY_HOLD by unfold ACTION_PLAY_HOLD; omega),
    if_pos (show a < ACTION_HOLD_CARD_OFFSET by unfold ACTION_HOLD_CARD_OFFSET; omega)]

lemma step_band_hold_card (s : GameState) (a : Nat) (hnf : forced_clear_fires s = false)
    (h11 : ACTION_HOLD_CARD_OFFSET ≤ a) (h15 : a < ACTION_CLEAR_STACK) :
    step s a = ((handle_hold_card_action s a).1, (handle_hold_card_action s a).2,
      decide (MAX_TURNS < (handle_hold_card_action s a).1.current_turn)) := by
  have h11 : 11 ≤ a := h11
  have h15 : a < 15 := h15
  unfold step
  rw [if_neg (by simp [hnf])]
  dsimp only
  rw [if_neg (show ¬a < ACTION_PLAY_HOLD by unfold ACTION_PLAY_HOLD; omega),
    if_neg (show ¬a = ACTION_PLAY_HOLD by unfold ACTION_PLAY_HOLD; omega),
    if_neg (show ¬a < ACTION_HOLD_CARD_OFFSET by unfold ACTION_HOLD_CARD_OFFSET; omega),
    if_pos (show a < ACTION_CLEAR_STACK by unfold ACTION_CLEAR_STACK; omega)]

lemma step_band_clear (s : GameState) (hnf : forced_clear_fires s = false) :
    step s ACTION_CLEAR_STACK =
      ((handle_clear_stack_action s).1, (handle_clear_stack_action s).2,
        decide (MAX_TURNS < (handle_clear_stack_action s).1.current_turn)) := by
  unfold step
  rw [if_neg (by simp [hnf])]
  rfl

lemma step_band_other (s : GameState) (a : Nat) (hnf : forced_clear_fires s = false)
    (h : NUM_ACTIONS ≤ a) :
    step s a = (s, PENALTY_INVALID_ACTION, decide (MAX_TURNS < s.current_turn)) := by
  unfold NUM_ACTIONS at h
  unfold step
  rw [if_neg (by simp [hnf])]
  dsimp only
  rw [if_neg (show ¬a < ACTION_PLAY_HOLD by unfold ACTION_PLAY_HOLD; omega),
    if_neg (show ¬a = ACTION_PLAY_HOLD by unfold ACTION_PLAY_HOLD; omega),
    if_neg (show ¬a < ACTION_HOLD_CARD_OFFSET by unfold ACTION_HOLD_CARD_OFFSET; omega),
    if_neg (show ¬a < ACTION_CLEAR_STACK by unfold ACTION_CLEAR_STACK; omega),
    if_neg (show ¬a = ACTION_CLEAR_STACK by unfold ACTION_CLEAR_STACK; omega)]

/-! ### Per-band mask/handler consistency -/

lemma play_hand_consistent (s : GameState) (i : Nat) (hi : i < 4) (hlen : s.hand.length = 4) :
    (is_valid_play s (handAt s i) = false →
      handle_play_hand_action s i = (s, PENALTY_INVALID_ACTION)) ∧
    (is_valid_play s (handAt s i) = true → (handle_play_hand_action s i).2 = 0) := by
  have hil : i < s.hand.length := by omega
  unfold handle_play_hand_action
  constructor <;> intro h <;> simp [hil, h]

lemma play_hold_consistent (s : GameState) :
    (is_valid_play s s.hold_slot = false →
      handle_play_hold_action s = (s, PENALTY_INVALID_ACTION)) ∧
    (is_valid_play s s.hold_slot = true → (handle_play_hold_action s).2 = 0) := by
  unfold handle_play_hold_action
  constructor <;> intro h <;> simp [h]

lemma mergeMaskAt_eq_true (s : GameState) (i j : Nat) :
    mergeMaskAt s i j = true ↔
      (s.merges_this_turn < MAX_MERGES_PER_TURN ∧ handAt s i = handAt s j ∧
        0 < handAt s i ∧ handAt s i < MAX_CARD_VALUE) := by
  unfold mergeMaskAt eligibleMergeCard
  constructor
  · intro h
    simp only [Bool.and_eq_true, decide_eq_true_eq] at h
    exact ⟨by tauto, by tauto, by tauto, by tauto⟩
  · rintro ⟨h1, h2, h3, h4⟩
    have h5 : handAt s i < MERGE_LIMIT_VALUE + 1 := by
      unfold MAX_CARD_VALUE at h4
      unfold MERGE_LIMIT_VALUE
      omega
    have h3' : 0 < handAt s j := h2 ▸ h3
    have h4' : handAt s j < MAX_CARD_VALUE := h2 ▸ h4
    have h5' : handAt s j < MERGE_LIMIT_VALUE + 1 := h2 ▸ h5
    simp [h1, h2, h3, h4, h5, h3', h4', h5']

lemma merge_consistent (s : GameState) (a i j : Nat)
    (hp : mergePairOfAction a = some (i, j)) (hij : i ≠ j)
    (hi : i < HAND_SIZE) (hj : j < HAND_SIZE) :
    (mergeMaskAt s i j = false → handle_merge_action s a = (s, PENALTY_INVALID_ACTION)) ∧
    (mergeMaskAt s i j = true → (handle_merge_action s a).2 = 0) := by
  constructor
  · intro hmask
    have hnot : ¬(s.merges_this_turn < MAX_MERGES_PER_TURN ∧ handAt s i = handAt s j ∧
        0 < handAt s i ∧ handAt s i < MAX_CARD_VALUE) := by
      rw [← mergeMaskAt_eq_true s i j]
      simp [hmask]
    unfold handle_merge_action
    rw [hp]
    by_cases hm : MAX_MERGES_PER_TURN ≤ s.merges_this_turn
    · rw [if_pos hm]
    · rw [if_neg hm]
      dsimp only
      have hcond : ¬(i < HAND_SIZE ∧ j < HAND_SIZE ∧ i ≠ j ∧ handAt s i = handAt s j ∧
          0 < handAt s i ∧ handAt s i < MAX_CARD_VALUE ∧
          handAt s i < MERGE_LIMIT_VALUE + 1) := by
        rintro ⟨c1, c2, c3, c4, c5, c6, c7⟩
        exact hnot ⟨by omega, c4, c5, c6⟩
      rw [if_neg hcond]
  · intro hmask
    obtain ⟨h1, h2, h3, h4⟩ := (mergeMaskAt_eq_true s i j).mp hmask
    have h5 : handAt s i < MERGE_LIMIT_VALUE + 1 := by
      unfold MAX_CARD_VALUE at h4
      unfold MERGE_LIMIT_VALUE
      omega
    unfold handle_merge_action
    rw [hp, if_neg (by omega : ¬MAX_MERGES_PER_TURN ≤ s.merges_this_turn)]
    dsimp only
    rw [if_pos ⟨hi, hj, hij, h2, h3, h4, h5⟩]

lemma hold_card_consistent (s : GameState) (a : Nat) (hi : a - ACTION_HOLD_CARD_OFFSET < 4) :
    (handAt s (a - ACTION_HOLD_CARD_OFFSET) ≠ 0 →
      handle_hold_card_action s a = (s, PENALTY_INVALID_ACTION)) ∧
    (handAt s (a - ACTION_HOLD_CARD_OFFSET) = 0 → (handle_hold_card_action s a).2 = 0) := by
  unfold handle_hold_card_action
  dsimp only
  constructor <;> intro h <;> simp [HAND_SIZE, hi, h]

lemma clear_consistent (s : GameState) :
    (s.stack.isEmpty = true → handle_clear_stack_action s = (s, PENALTY_INVALID_ACTION)) ∧
    (s.stack.isEmpty = false → 0 ≤ (handle_clear_stack_action s).2) := by
  unfold handle_clear_stack_action
  constructor <;> intro h <;> simp [h, calc_clear_reward_nonneg]

/-- Claim C2: outside the forced-clear pre-check path, a `false` mask entry
means `step` returns exactly the −0.1 penalty with the state completely
unchanged, and a `true` mask entry means `step` performs the operation
without the penalty (its reward is never negative). -/
theorem c2_mask_step_consistency (s : GameState) (a : Nat) (ha : a < NUM_ACTIONS)
    (hlen : s.hand.length = 4) (hnf : forced_clear_fires s = false) :
    ((action_masks s).getD a false = false →
      (step s a).1 = s ∧ (step s a).2.1 = PENALTY_INVALID_ACTION) ∧
    ((action_masks s).getD a false = true → 0 ≤ (step s a).2.1) := by
  unfold NUM_ACTIONS at ha
  interval_cases a
  · rw [step_band_play_hand s 0 hnf (by decide)]
    obtain ⟨hf, ht⟩ := play_hand_consistent s 0 (by decide) hlen
    constructor <;> intro hm
    · simp [hf (by simpa [action_masks] using hm)]
    · simp [ht (by simpa [action_masks] using hm)]
  · rw [step_band_play_hand s 1 hnf (by decide)]
    obtain ⟨hf, ht⟩ := play_hand_consistent s 1 (by decide) hlen
    constructor <;> intro hm
    · simp [hf (by simpa [action_masks] using hm)]
    · simp [ht (by simpa [action_masks] using hm)]
  · rw [step_band_play_hand s 2 hnf (by decide)]
    obtain ⟨hf, ht⟩ := play_hand_consistent s 2 (by decide) hlen
    constructor <;> intro hm
    · simp [hf (by simpa [action_masks] using hm)]
    · simp [ht (by simpa [action_masks] using hm)]
  · rw [step_band_play_hand s 3 hnf (by decide)]
    obtain ⟨hf, ht⟩ := play_hand_consistent s 3 (by decide) hlen
    constructor <;> intro hm
    · simp [hf (by simpa [action_masks] using hm)]
    · simp [ht (by simpa [action_masks] using hm)]
  · rw [show (4 : Nat) = ACTION_PLAY_HOLD from rfl, step_band_play_hold s hnf]
    obtain ⟨hf, ht⟩ := play_hold_consistent s
    constructor <;> intro hm
    · simp [hf (by simpa [action_masks, ACTION_PLAY_HOLD] using hm)]
    · simp [ht (by simpa [action_masks, ACTION_PLAY_HOLD] using hm)]
  · rw [step_band_merge s 5 hnf (by decide) (by decide)]
    obtain ⟨hf, ht⟩ := merge_consistent s 5 0 1 (by decide) (by decide) (by decide) (by decide)
    constructor <;> intro hm
    · simp [hf (by simpa [action_masks] using hm)]
    · simp [ht (by simpa [action_masks] using hm)]
  · rw [step_band_merge s 6 hnf (by decide) (by decide)]
    obtain ⟨hf, ht⟩ := merge_consistent s 6 0 2 (by decide) (by decide) (by decide) (by decide)
    constructor <;> intro hm
    · simp [hf (by simpa [action_masks] using hm)]
    · simp [ht (by simpa [action_masks] using hm)]
  · rw [step_band_merge s 7 hnf (by decide) (by decide)]
    obtain ⟨hf, ht⟩ := merge_consistent s 7 0 3 (by decide) (by decide) (by decide) (by decide)
    constructor <;> intro hm
    · simp [hf (by simpa [action_masks] using hm)]
    · simp [ht (by simpa [action_masks] using hm)]
  · rw [step_band_merge s 8 hnf (by decide) (by decide)]
    obtain ⟨hf, ht⟩ := merge_consistent s 8 1 2 (by decide) (by decide) (by decide) (by decide)
    constructor <;> intro hm
    · simp [hf (by simpa [action_masks] using hm)]
    · simp [ht (by simpa [action_masks] using hm)]
  · rw [step_band_merge s 9 hnf (by decide) (by decide)]
    obtain ⟨hf, ht⟩ := merge_consistent s 9 1 3 (by decide) (by decide) (by decide) (by decide)
    constructor <;> intro hm
    · simp [hf (by simpa [action_masks] using hm)]
    · simp [ht (by simpa [action_masks] using hm)]
  · rw [step_band_merge s 10 hnf (by decide) (by decide)]
    obtain ⟨hf, ht⟩ := merge_consistent s 10 2 3 (by decide) (by decide) (by decide) (by decide)
    constructor <;> intro hm
    · simp [hf (by simpa [action_masks] using hm)]
    · simp [ht (by simpa [action_masks] using hm)]
  · rw [step_band_hold_card s 11 hnf (by decide) (by decide)]
    obtain ⟨hf, ht⟩ := hold_card_consistent s 11 (by decide)
    constructor <;> intro hm
    · simp [hf (by simpa [action_masks, ACTION_HOLD_CARD_OFFSET] using hm)]
    · simp [ht (by simpa [action_masks, ACTION_HOLD_CARD_OFFSET] using hm)]
  · rw [step_band_hold_card s 12 hnf (by decide) (by decide)]
    obtain ⟨hf, ht⟩ := hold_card_consistent s 12 (by decide)
    constructor <;> intro hm
    · simp [hf (by simpa [action_masks, ACTION_HOLD_CARD_OFFSET] using hm)]
    · simp [ht (by simpa [action_masks, ACTION_HOLD_CARD_OFFSET] using hm)]
  · rw [step_band_hold_card s 13 hnf (by decide) (by decide)]
    obtain ⟨hf, ht⟩ := hold_card_consistent s 13 (by decide)
    constructor <;> intro hm
    · simp [hf (by simpa [action_masks, ACTION_HOLD_CARD_OFFSET] using hm)]
    · simp [ht (by simpa [action_masks, ACTION_HOLD_CARD_OFFSET] using hm)]
  · rw [step_band_hold_card s 14 hnf (by decide) (by decide)]
    obtain ⟨hf, ht⟩ := hold_card_consistent s 14 (by decide)
    constructor <;> intro hm
    · simp [hf (by simpa [action_masks, ACTION_HOLD_CARD_OFFSET] using hm)]
    · simp [ht (by simpa [action_masks, ACTION_HOLD_CARD_OFFSET] using hm)]
  · rw [show (15 : Nat) = ACTION_CLEAR_STACK from rfl, step_band_clear s hnf]
    obtain ⟨hf, ht⟩ := clear_consistent s
    constructor <;> intro hm
    · simp [hf (by simpa [action_masks, ACTION_CLEAR_STACK] using hm)]
    · simpa using ht (by simpa [action_masks, ACTION_CLEAR_STACK] using hm)

/-- Witness for C2: action 15 on an empty stack has a `false` mask entry and
`step` returns the penalty unchanged. -/
theorem c2_witness :
    (((action_masks playableState).getD 15 false = false →
      (step playableState 15).1 = playableState ∧
        (step playableState 15).2.1 = PENALTY_INVALID_ACTION) ∧
    ((action_masks playableState).getD 15 false = true →
      0 ≤ (step playableState 15).2.1)) :=
  c2_mask_step_consistency playableState 15 (by decide) (by decide) (by decide)

/-! ### C5: merge actions -/

lemma mergePairOfAction_spec {a i j : Nat} (hp : mergePairOfAction a = some (i, j)) :
    ACTION_MERGE_OFFSET ≤ a ∧ a < ACTION_HOLD_CARD_OFFSET ∧ i < j ∧ j < HAND_SIZE := by
  unfold mergePairOfAction at hp
  split_ifs at hp <;>
    simp_all [ACTION_MERGE_OFFSET, ACTION_HOLD_CARD_OFFSET, HAND_SIZE] <;> omega

/-- The success condition of a merge, as the claim states it: merges remain
this turn, the decoded indices are distinct and in range, and the two hand
cards are equal and strictly between 0 and 5. -/
def mergeLegal (s : GameState) (i j : Nat) : Prop :=
  s.merges_this_turn < MAX_MERGES_PER_TURN ∧ i ≠ j ∧ i < HAND_SIZE ∧ j < HAND_SIZE ∧
    handAt s i = handAt s j ∧ 0 < handAt s i ∧ handAt s i < MAX_CARD_VALUE

/-- The hand produced by a successful merge: the merged value at the lower
index, the old `next_card` at the higher index. -/
def mergedHand (s : GameState) (i j : Nat) : List Int :=
  (s.hand.set (min i j) (mergedValue (handAt s i))).set (max i j) s.next_card

/-- Claim C5: for merge action ids (5-10) outside the forced-clear path, the
merge succeeds iff `mergeLegal` holds; on success the merged value (v+1 for
v < 4, else 4) goes to the lower index, the higher index is refilled from
`next_card`, a fresh `next_card` is drawn, and the merge counter increments;
otherwise the reward is −0.1 and the state is unchanged. -/
theorem c5_merge_action (s : GameState) (a i j : Nat)
    (hnf : forced_clear_fires s = false)
    (hp : mergePairOfAction a = some (i, j)) :
    (mergeLegal s i j →
      (step s a).2.1 = 0 ∧
      (step s a).1.hand = mergedHand s i j ∧
      (step s a).1.next_card = (draw_card { s with hand := mergedHand s i j }).1 ∧
      (step s a).1.merges_this_turn = s.merges_this_turn + 1) ∧
    (¬mergeLegal s i j →
      (step s a).1 = s ∧ (step s a).2.1 = PENALTY_INVALID_ACTION) := by
  obtain ⟨h5a, h11a, hij_lt, hj4⟩ := mergePairOfAction_spec hp
  rw [step_band_merge s a hnf h5a h11a]
  constructor
  · rintro ⟨hm, hne, hi4, hj4', heq, h0, hlt5⟩
    have h5v : handAt s i < MERGE_LIMIT_VALUE + 1 := by
      unfold MAX_CARD_VALUE at hlt5
      unfold MERGE_LIMIT_VALUE
      omega
    unfold handle_merge_action
    rw [hp, if_neg (by omega : ¬MAX_MERGES_PER_TURN ≤ s.merges_this_turn)]
    dsimp only
    rw [if_pos ⟨hi4, hj4', hne, heq, h0, hlt5, h5v⟩]
    refine ⟨rfl, ?_, ?_, ?_⟩
    · simp [remove_and_replace_merged_cards, draw_card_state, mergedHand]
    · simp [remove_and_replace_merged_cards, mergedHand]
    · simp [remove_and_replace_merged_cards, draw_card_state]
  · intro hnl
    unfold handle_merge_action
    rw [hp]
    by_cases hm : MAX_MERGES_PER_TURN ≤ s.merges_this_turn
    · rw [if_pos hm]
      exact ⟨rfl, rfl⟩
    · rw [if_neg hm]
      dsimp only
      have hcond : ¬(i < HAND_SIZE ∧ j < HAND_SIZE ∧ i ≠ j ∧ handAt s i = handAt s j ∧
          0 < handAt s i ∧ handAt s i < MAX_CARD_VALUE ∧
          handAt s i < MERGE_LIMIT_VALUE + 1) := by
        rintro ⟨c1, c2, c3, c4, c5, c6, c7⟩
        exact hnl ⟨by omega, c3, c1, c2, c4, c5, c6⟩
      rw [if_neg hcond]
      exact ⟨rfl, rfl⟩

/-- Witness for C5: merging the two 2s at hand slots 0 and 1 (action 5). -/
theorem c5_witness :
    (forced_clear_fires mergeDemoState = false ∧ mergePairOfAction 5 = some (0, 1)) ∧
    ((mergeLegal mergeDemoState 0 1 →
      (step mergeDemoState 5).2.1 = 0 ∧
      (step mergeDemoState 5).1.hand = mergedHand mergeDemoState 0 1 ∧
      (step mergeDemoState 5).1.next_card =
        (draw_card { mergeDemoState with hand := mergedHand mergeDemoState 0 1 }).1 ∧
      (step mergeDemoState 5).1.merges_this_turn = mergeDemoState.merges_this_turn + 1) ∧
    (¬mergeLegal mergeDemoState 0 1 →
      (step mergeDemoState 5).1 = mergeDemoState ∧
      (step mergeDemoState 5).2.1 = PENALTY_INVALID_ACTION)) :=
  ⟨⟨by decide, by decide⟩, c5_merge_action mergeDemoState 5 0 1 (by decide) (by decide)⟩

/-! ### C10: stepping a terminated episode -/

/-- Claim C10: once `current_turn` has exceeded `MAX_TURNS`, `step` applies
no guard: it is dispatched exactly as in a live state (the concrete
conjuncts show a play and a forced clear still mutating the state) and
returns `terminated = true` again. -/
theorem c10_step_after_termination :
    (∀ (s : GameState) (a : Nat), MAX_TURNS < s.current_turn → (step s a).2.2 = true) ∧
    (step deadPlayState 0).1.stack = [3] ∧
    (step deadPlayState 0).1.hand = [2, 1, 1, 1] ∧
    (step deadForcedState 9).1.current_turn = 22 := by
  refine ⟨fun s a h => ?_, by decide, by decide, by decide⟩
  rw [step_terminated_eq]
  have hge := step_turn_ge s a
  simp only [decide_eq_true_eq]
  omega

/-- Witness for C10 at a concrete terminated state. -/
theorem c10_witness :
    MAX_TURNS < deadPlayState.current_turn ∧ (step deadPlayState 5).2.2 = true :=
  ⟨by decide, c10_step_after_termination.1 deadPlayState 5 (by decide)⟩

/-! ### C9: the retained last-clear telemetry -/

/-- A state differing only in the retained last-clear telemetry fields. -/
def setTelemetry (s : GameState) (b : Bool) (n : Nat) : GameState :=
  { s with last_clear_is_full_chain := b, last_clear_stacked_zeros := n }

lemma action_masks_setTelemetry (s : GameState) (b : Bool) (n : Nat) :
    action_masks (setTelemetry s b n) = action_masks s := rfl

lemma forced_setTelemetry (s : GameState) (b : Bool) (n : Nat) :
    forced_clear_fires (setTelemetry s b n) = forced_clear_fires s := rfl

lemma calc_parts_setTelemetry (s : GameState) (b : Bool) (n : Nat) :
    (calculate_clear_reward (setTelemetry s b n)).2 = (calculate_clear_reward s).2 := rfl

lemma calc_reward_setTelemetry (s : GameState) (b : Bool) (n : Nat) :
    (calculate_clear_reward (setTelemetry s b n)).2.1 = (calculate_clear_reward s).2.1 := by
  rw [calc_parts_setTelemetry]

lemma setTelemetry_hand (s : GameState) (b : Bool) (n : Nat) :
    (setTelemetry s b n).hand = s.hand := rfl

lemma setTelemetry_hold (s : GameState) (b : Bool) (n : Nat) :
    (setTelemetry s b n).hold_slot = s.hold_slot := rfl

lemma setTelemetry_stack (s : GameState) (b : Bool) (n : Nat) :
    (setTelemetry s b n).stack = s.stack := rfl

lemma setTelemetry_merges (s : GameState) (b : Bool) (n : Nat) :
    (setTelemetry s b n).merges_this_turn = s.merges_this_turn := rfl

lemma is_valid_play_setTelemetry (s : GameState) (b : Bool) (n : Nat) (c : Int) :
    is_valid_play (setTelemetry s b n) c = is_valid_play s c := rfl

lemma handAt_setTelemetry (s : GameState) (b : Bool) (n : Nat) (i : Nat) :
    handAt (setTelemetry s b n) i = handAt s i := rfl

lemma play_hand_reward_setTelemetry (s : GameState) (b : Bool) (n : Nat) (a : Nat) :
    (handle_play_hand_action (setTelemetry s b n) a).2 = (handle_play_hand_action s a).2 := by
  unfold handle_play_hand_action
  simp only [setTelemetry_hand, is_valid_play_setTelemetry, handAt_setTelemetry]
  split_ifs <;> rfl

lemma play_hold_reward_setTelemetry (s : GameState) (b : Bool) (n : Nat) :
    (handle_play_hold_action (setTelemetry s b n)).2 = (handle_play_hold_action s).2 := by
  unfold handle_play_hold_action
  simp only [setTelemetry_hold, is_valid_play_setTelemetry]
  split_ifs <;> rfl

lemma merge_reward_setTelemetry (s : GameState) (b : Bool) (n : Nat) (a : Nat) :
    (handle_merge_action (setTelemetry s b n) a).2 = (handle_merge_action s a).2 := by
  cases hmp : mergePairOfAction a with
  | none =>
    unfold handle_merge_action
    rw [hmp]
    simp only [setTelemetry_merges]
    split_ifs <;> rfl
  | some p =>
    rcases p with ⟨i, j⟩
    unfold handle_merge_action
    rw [hmp]
    simp only [setTelemetry_merges, handAt_setTelemetry]
    split_ifs <;> rfl

lemma hold_card_reward_setTelemetry (s : GameState) (b : Bool) (n : Nat) (a : Nat) :
    (handle_hold_card_action (setTelemetry s b n) a).2 = (handle_hold_card_action s a).2 := by
  unfold handle_hold_card_action
  simp only [handAt_setTelemetry]
  split_ifs <;> rfl

lemma clear_reward_setTelemetry (s : GameState) (b : Bool) (n : Nat) :
    (handle_clear_stack_action (setTelemetry s b n)).2 = (handle_clear_stack_action s).2 := by
  unfold handle_clear_stack_action
  simp only [setTelemetry_stack]
  split_ifs
  · rfl
  · dsimp only
    exact calc_reward_setTelemetry s b n

lemma step_reward_setTelemetry (s : GameState) (b : Bool) (n : Nat) (a : Nat) :
    (step (setTelemetry s b n) a).2.1 = (step s a).2.1 := by
  unfold step
  rw [forced_setTelemetry]
  dsimp only
  split_ifs with hf h1 h2 h3 h4 h5
  · exact calc_reward_setTelemetry s b n
  · exact play_hand_reward_setTelemetry s b n a
  · exact play_hold_reward_setTelemetry s b n
  · exact merge_reward_setTelemetry s b n a
  · exact hold_card_reward_setTelemetry s b n a
  · exact clear_reward_setTelemetry s b n
  · rfl

/-- C9 counterexample: in `forcedDemoState` the forced clear earns the
full-chain reward 1000, yet the Info produced by that very `step` call still
reports `is_full_chain = false` — the forced-clear path never records the
clear it performs, so the claim "after every stack clear, whether forced or
voluntary, the Info reports that clear's full-chain flag" is false. -/
theorem c9_counterexample :
    forced_clear_fires forcedDemoState = true ∧
    (calculate_clear_reward forcedDemoState).2.2.1 = true ∧
    (step forcedDemoState 0).2.1 = 1000 ∧
    (get_info (step forcedDemoState 0).1).is_full_chain = false := by
  decide

/-- C9 amended: only a voluntary clear (action 15) records its full-chain
flag and zero count, and the Info after it reports that flag; a forced clear
leaves the previously retained values untouched; and the retained values
never influence the legality mask or any step reward. -/
theorem c9_amended (s : GameState) (hst : s.stack.isEmpty = false)
    (hnf : forced_clear_fires s = false) :
    ((step s ACTION_CLEAR_STACK).1.last_clear_is_full_chain =
        (calculate_clear_reward s).2.2.1 ∧
      (step s ACTION_CLEAR_STACK).1.last_clear_stacked_zeros =
        (calculate_clear_reward s).2.2.2 ∧
      (get_info (step s ACTION_CLEAR_STACK).1).is_full_chain =
        (calculate_clear_reward s).2.2.1) ∧
    (∀ (t : GameState) (b : Bool) (n : Nat),
      action_masks (setTelemetry t b n) = action_masks t) ∧
    (∀ (t : GameState) (b : Bool) (n : Nat) (a : Nat),
      (step (setTelemetry t b n) a).2.1 = (step t a).2.1) ∧
    (∀ (t : GameState) (a : Nat), forced_clear_fires t = true →
      (step t a).1.last_clear_is_full_chain = t.last_clear_is_full_chain ∧
      (step t a).1.last_clear_stacked_zeros = t.last_clear_stacked_zeros) := by
  refine ⟨?_, fun t b n => action_masks_setTelemetry t b n,
    fun t b n a => step_reward_setTelemetry t b n a, fun t a hft => ?_⟩
  · rw [step_band_clear s hnf]
    unfold handle_clear_stack_action
    rw [if_neg (by simp [hst])]
    exact ⟨rfl, rfl, rfl⟩
  · obtain ⟨-, -, -, -, -, -, h7, h8⟩ := calc_clear_state t
    unfold step
    rw [if_pos hft]
    exact ⟨h7, h8⟩

/-- Witness for C9 (amended) at a voluntary clear of the stack [1]. -/
theorem c9_witness :
    (volClearState.stack.isEmpty = false ∧ forced_clear_fires volClearState = false) ∧
    (((step volClearState ACTION_CLEAR_STACK).1.last_clear_is_full_chain =
        (calculate_clear_reward volClearState).2.2.1 ∧
      (step volClearState ACTION_CLEAR_STACK).1.last_clear_stacked_zeros =
        (calculate_clear_reward volClearState).2.2.2 ∧
      (get_info (step volClearState ACTION_CLEAR_STACK).1).is_full_chain =
        (calculate_clear_reward volClearState).2.2.1) ∧
    (∀ (t : GameState) (b : Bool) (n : Nat),
      action_masks (setTelemetry t b n) = action_masks t) ∧
    (∀ (t : GameState) (b : Bool) (n : Nat) (a : Nat),
      (step (setTelemetry t b n) a).2.1 = (step t a).2.1) ∧
    (∀ (t : GameState) (a : Nat), forced_clear_fires t = true →
      (step t a).1.last_clear_is_full_chain = t.last_clear_is_full_chain ∧
      (step t a).1.last_clear_stacked_zeros = t.last_clear_stacked_zeros)) :=
  ⟨⟨by decide, by decide⟩, c9_amended volClearState (by decide) (by decide)⟩

/-! ### C6: the at-most-one-5 invariant -/

/-- Claim C6 is violated by the code: on a fresh instance, the list
comprehension in `_deal_initial_cards` evaluates all four `_draw_card()`
calls before assigning `self.hand`, so each draw sees the old (empty) hand
and the at-most-one-5 check never triggers.  With the RNG stream always
answering "no zero card, choice index 4", every pre-assignment draw picks 5
from the full pool `[1,2,3,4,5]`, and `reset` deals the hand `[5,5,5,5]`. -/
theorem c6_five_invariant_violated :
    (reset (initState rngAllFives 0)).hand = [5, 5, 5, 5] ∧
    1 < count_specific_card_on_board (reset (initState rngAllFives 0)) MAX_CARD_VALUE := by
  decide

/-! ### C7: action ids outside [0,16) -/

/-- C7 counterexample: `step` with the out-of-range action id 16 returns
normally — the final `else` of the dispatch yields the −0.1 penalty with the
state unchanged (and `terminated = false`), not a hard failure.  The
transition function of the source is total: no branch of `step` raises. -/
theorem c7_counterexample :
    step playableState 16 = (playableState, PENALTY_INVALID_ACTION, false) := rfl

/-- C7 amended: for every action id ≥ 16 (outside the five dispatch bands),
when the forced-clear pre-check does not fire, `step` returns normally with
the fixed −0.1 penalty and the state unchanged. -/
theorem c7_amended (s : GameState) (a : Nat) (ha : NUM_ACTIONS ≤ a)
    (hnf : forced_clear_fires s = false) :
    (step s a).1 = s ∧ (step s a).2.1 = PENALTY_INVALID_ACTION := by
  rw [step_band_other s a hnf ha]
  exact ⟨rfl, rfl⟩

/-- Witness for C7 (amended) at action id 20. -/
theorem c7_witness :
    (NUM_ACTIONS ≤ 20 ∧ forced_clear_fires playableState = false) ∧
    ((step playableState 20).1 = playableState ∧
      (step playableState 20).2.1 = PENALTY_INVALID_ACTION) :=
  ⟨⟨by decide, by decide⟩, c7_amended playableState 20 (by decide) (by decide)⟩

/-! ### C8: seeding and the shared global RNG -/

/-- Claim C8 is violated by the code: `_draw_card` consumes Python's global
`random` module, which all instances share, and `reset(seed=...)` seeds only
the never-used `self.np_random`.  Modelling the global stream, a second
instance created after the first one's `reset` resumes the stream at
position 5 (`(reset ...).rngIdx`), and with the stream
`n = 0 ↦ choice 0, n ≥ 1 ↦ choice 1` the two instances — given identical
(empty) action sequences after their resets — observe different hands:
`[1,2,2,2]` versus `[2,2,2,2]`. -/
theorem c8_seed_determinism_violated :
    (get_obs (reset (initState rngShift 0))).hand = [1, 2, 2, 2] ∧
    (get_obs (reset (initState rngShift ((reset (initState rngShift 0)).rngIdx)))).hand
      = [2, 2, 2, 2] ∧
    (get_obs (reset (initState rngShift 0))).hand ≠
      (get_obs (reset (initState rngShift ((reset (initState rngShift 0)).rngIdx)))).hand := by
  decide

end CardGame
